import Mathlib

/-!
Verification of the CDSCO RAG pipeline (notebook CDSCO_RAG_with_Llama.ipynb).

The notebook wires a web-scraping ingestion loop, a text splitter, a Chroma
vector store with an Ollama embedding model, and a two-function RAG
orchestrator (ollama_llm, rag_chain).  The orchestrator and the ingestion
loop are embedded here directly from the notebook source; the chunker and
the vector-index search, which the notebook delegates to library calls
whose code is not part of this repository, are modelled from the design
specification and marked as such in their doc comments.
-/

/-- A langchain Document as built by the notebook: page content plus the
source label stored in its metadata. -/
structure Document where
  page_content : String
  source : String
deriving DecidableEq

/-- The message part of an ollama.chat response. -/
structure ChatMessage where
  content : String
deriving DecidableEq

/-- An ollama.chat response: the notebook reads response.message.content. -/
structure ChatResponse where
  message : ChatMessage
deriving DecidableEq

/-- A generation-stage failure, carrying which stage failed and the original
cause, as the error-handling design requires of propagated failures. -/
structure GenerationFailure where
  stage : String
  cause : String
deriving DecidableEq

/-- The prompt string built inside ollama_llm, embedding the f-string
"Question: {question}\nContext: {context}\nAnswer:". -/
def formattedPrompt (question context : String) : String :=
  "Question: " ++ question ++ "\nContext: " ++ context ++ "\nAnswer:"

/-- Embedding of the notebook function ollama_llm.  The ollama.chat call is
modelled as a fallible provider function; the second component records the
prompts sent to the provider (the source makes exactly one chat call).  On
success the provider response's message content is returned unmodified. -/
def ollama_llm (chat : String → Except GenerationFailure ChatResponse)
    (question context : String) : Except GenerationFailure String × List String :=
  let formatted_prompt := formattedPrompt question context
  (Except.map (fun r => r.message.content) (chat formatted_prompt), [formatted_prompt])

/-- Embedding of the notebook function rag_chain: retrieve documents for the
question, join their page contents with a blank line, and call ollama_llm. -/
def rag_chain (retriever : String → List Document)
    (chat : String → Except GenerationFailure ChatResponse)
    (question : String) : Except GenerationFailure String × List String :=
  let retrieved_docs := retriever question
  let formatted_context :=
    String.intercalate "\n\n" (retrieved_docs.map Document.page_content)
  ollama_llm chat question formatted_context

/-- Spec-side context builder: concatenate the retrieved chunk texts in
result order, best match first, separated by a blank-line delimiter. -/
def specContext : List Document → String
  | [] => ""
  | [d] => d.page_content
  | d :: rest => d.page_content ++ "\n\n" ++ specContext rest

/-- Spec-side prompt format: the literal question and the context under
labeled sections Question / Context / Answer. -/
def specPrompt (question context : String) : String :=
  "Question: " ++ question ++ "\nContext: " ++ context ++ "\nAnswer:"

/-- Stateful embedding of rag_chain used to state idempotence: the provider
calls may thread a state, while the orchestrator itself keeps none. -/
def rag_chainS {σ : Type} (retriever : σ → String → List Document × σ)
    (chat : σ → String → ChatResponse × σ) (question : String) (s : σ) :
    String × σ :=
  let r := retriever s question
  let formatted_context := String.intercalate "\n\n" (r.1.map Document.page_content)
  let resp := chat r.2 (formattedPrompt question formatted_context)
  ((resp.1).message.content, resp.2)

/-- A source document as handed to the chunker: a source label and its
text, taken here as a character list. -/
structure SourceDocument where
  id : String
  text : List Char
deriving DecidableEq

/-- A chunk of a source document: traceability label, running index from 0,
the chunk text, and the character offset where it starts. -/
structure Chunk where
  source_id : String
  sequence_index : Nat
  text : List Char
  start_offset : Nat
deriving DecidableEq

/-- An invalid chunk-size / overlap configuration, rejected at call time. -/
structure ConfigurationError where
  msg : String
deriving DecidableEq

/-- Modelled from the spec: the sliding windows of the Chunker algorithm.
The notebook delegates chunking to RecursiveCharacterTextSplitter, whose
code is not part of this repository, so the window walk is taken from the
design spec: a window of length size advances by step characters (written
s + 1 so the step is positive), one chunk per window position, and the
final window, the first one that reaches the end of the text, is truncated
to the remaining text rather than padded. -/
def windows (size s : Nat) (off : Nat) (t : List Char) : List (Nat × List Char) :=
  if t.length ≤ size then [(off, t)]
  else (off, t.take size) :: windows size s (off + (s+1)) (t.drop (s+1))
termination_by t.length
decreasing_by simp; omega

/-- Chunks built from window positions, with sequence_index counting up
from the given start value. -/
def chunksFrom (sid : String) : Nat → List (Nat × List Char) → List Chunk
  | _, [] => []
  | k, p :: rest => ⟨sid, k, p.2, p.1⟩ :: chunksFrom sid (k+1) rest

/-- Modelled from the spec: the Chunker contract.  A configuration with
overlap at least size is rejected at call time with a ConfigurationError;
an empty document yields zero chunks; otherwise the window walk starts at
offset 0 with step size - overlap. -/
def chunk (doc : SourceDocument) (size overlap : Nat) :
    Except ConfigurationError (List Chunk) :=
  if size ≤ overlap then
    Except.error ⟨"chunk overlap must be smaller than chunk size"⟩
  else if doc.text = [] then Except.ok []
  else Except.ok (chunksFrom doc.id 0 (windows size (size - overlap - 1) 0 doc.text))

/-- Consecutive pairs of a list, in order. -/
def consecPairs {α : Type} (l : List α) : List (α × α) := l.zip l.tail

/-- A chunk together with its embedding vector, as stored in the index.
Vectors are modelled over the rationals. -/
structure EmbeddedChunk where
  chunk : Chunk
  vector : List ℚ
deriving DecidableEq

/-- Modelled from the spec: Vector Index search.  The notebook delegates
nearest-neighbor lookup to Chroma, whose code is not part of this
repository, so search is taken from the design spec: score every stored
chunk with the similarity measure for the query vector, sort descending by
score with a stable sort so ties keep insertion order, and return the top
k scored chunks. -/
def search (index : List EmbeddedChunk) (score : List ℚ → ℚ) (k : Nat) :
    List (Chunk × ℚ) :=
  (List.insertionSort (fun a b => b.2 ≤ a.2)
    (index.map fun ec => (ec.chunk, score ec.vector))).take k

/-- The reference retrieval breadth configuration: on the order of 4, the
default the notebook's retriever configuration falls back to. -/
def retrieval_k : Nat := 4

/-- Modelled from the spec: the Retriever.  Embed the query text, search
the index with the resulting vector and the configured k, and return the
chunk portion of each result, discarding scores. -/
def retrieve (index : List EmbeddedChunk) (embed : String → List ℚ)
    (sim : List ℚ → List ℚ → ℚ) (q : String) (k : Nat) : List Chunk :=
  (search index (fun v => sim (embed q) v) k).map Prod.fst

/-- An iframe element of a fetched page, with its optional src attribute. -/
structure IframeEl where
  src : Option String
deriving DecidableEq

/-- A fetched intermediary page, reduced to what the ingestion loop reads:
its first iframe element, when one exists. -/
structure WebPage where
  iframe : Option IframeEl
deriving DecidableEq

/-- The ingestion loop's external world: fetching and parsing a JSP page,
downloading raw bytes, PDF text extraction, and URL joining.  Each fallible
call is an Except, the error being the exception message. -/
structure IngestEnv where
  fetchPage : String → Except String WebPage
  fetchBytes : String → Except String (List Nat)
  extractText : List Nat → Except String String
  resolve : String → String → String

/-- The four bytes of the "%PDF" header. -/
def pdfMagic : List Nat := [37, 80, 68, 70]

/-- Python bytes containment, as in the check b"%PDF" in content, written
on byte lists. -/
def bytesContains (needle : List Nat) : List Nat → Bool
  | [] => needle.isEmpty
  | a :: t => needle.isPrefixOf (a :: t) || bytesContains needle t

/-- The notebook's header check, b"%PDF" in pdf_resp.content[:4]. -/
def hasPdfHeader (content : List Nat) : Bool :=
  bytesContains pdfMagic (content.take 4)

/-- Embedding of one iteration of the notebook's PDF ingestion loop: fetch
the JSP page, look for an iframe with a src attribute, download the iframe
target, check the PDF header, extract text.  The first component is the
document appended to docs, if any; the second is the error message printed
by the except arm, if any.  Pages without a usable iframe and downloads
without a PDF header fall through silently. -/
def processUrl (env : IngestEnv) (i : Nat) (jsp_url : String) :
    Option Document × Option String :=
  match env.fetchPage jsp_url with
  | Except.error e => (none, some ("Error on " ++ jsp_url ++ ": " ++ e))
  | Except.ok page =>
    match page.iframe with
    | none => (none, none)
    | some ifr =>
      match ifr.src with
      | none => (none, none)
      | some src =>
        match env.fetchBytes (env.resolve jsp_url src) with
        | Except.error e => (none, some ("Error on " ++ jsp_url ++ ": " ++ e))
        | Except.ok content =>
          if hasPdfHeader content then
            match env.extractText content with
            | Except.error e => (none, some ("Error on " ++ jsp_url ++ ": " ++ e))
            | Except.ok text => (some ⟨text, "url_" ++ toString i⟩, none)
          else (none, none)

/-- Embedding of the notebook's ingestion loop over the enumerated URL list:
collect the appended documents and the printed error messages in order. -/
def ingest (env : IngestEnv) : Nat → List String → List Document × List String
  | _, [] => ([], [])
  | i, u :: rest =>
    ((processUrl env i u).1.toList ++ (ingest env (i+1) rest).1,
     (processUrl env i u).2.toList ++ (ingest env (i+1) rest).2)

lemma intercalate_go_cons (s : String) : ∀ (l : List String) (acc b : String),
    String.intercalate.go acc s (b :: l) = acc ++ s ++ String.intercalate.go b s l := by
  intro l
  induction l with
  | nil => intro acc b; simp [String.intercalate.go]
  | cons c l ih =>
    intro acc b
    rw [show String.intercalate.go acc s (b :: c :: l)
          = String.intercalate.go (acc ++ s ++ b) s (c :: l) from rfl]
    rw [ih, ih]
    simp [String.append_assoc]

lemma intercalate_eq_specContext (docs : List Document) :
    String.intercalate "\n\n" (docs.map Document.page_content) = specContext docs := by
  induction docs with
  | nil => rfl
  | cons d rest ih =>
    cases rest with
    | nil => rfl
    | cons e rest2 =>
      have h1 : String.intercalate "\n\n" (List.map Document.page_content (d :: e :: rest2))
          = String.intercalate.go d.page_content "\n\n"
              (e.page_content :: List.map Document.page_content rest2) := rfl
      rw [h1, intercalate_go_cons]
      have h2 : String.intercalate.go e.page_content "\n\n"
            (List.map Document.page_content rest2)
          = String.intercalate "\n\n" (List.map Document.page_content (e :: rest2)) := rfl
      rw [h2, ih]
      rfl

/-- C1: for every question, rag_chain builds its context by concatenating the
retrieved chunk texts in retrieval-result order separated by a blank line,
sends the Generation Provider exactly the prompt with labeled
Question/Context/Answer sections containing the literal question and that
context, and returns the provider's output string unmodified. -/
theorem C1_context_prompt_output (retriever : String → List Document)
    (chat : String → Except GenerationFailure ChatResponse) (question : String) :
    rag_chain retriever chat question =
      (Except.map (fun r => r.message.content)
        (chat (specPrompt question (specContext (retriever question)))),
       [specPrompt question (specContext (retriever question))]) := by
  simp only [rag_chain, ollama_llm]
  rw [intercalate_eq_specContext]
  rfl

/-- C4: if retrieval returns zero chunks, rag_chain still calls the
Generation Provider once, with an empty context string in the prompt, and
returns the provider's output rather than failing. -/
theorem C4_empty_retrieval_still_generates (retriever : String → List Document)
    (chat : String → Except GenerationFailure ChatResponse) (question : String)
    (h : retriever question = []) :
    rag_chain retriever chat question =
      (Except.map (fun r => r.message.content) (chat (formattedPrompt question "")),
       [formattedPrompt question ""]) := by
  simp only [rag_chain, ollama_llm]
  rw [h]
  rfl

/-- Witness for C4 at a concrete empty retriever and a concrete provider. -/
theorem C4_empty_retrieval_still_generates_witness :
    (fun (_ : String) => ([] : List Document)) "q" = [] ∧
    rag_chain (fun _ => []) (fun p => Except.ok ⟨⟨p⟩⟩) "q" =
      (Except.map (fun r => r.message.content)
        ((fun p => Except.ok (⟨⟨p⟩⟩ : ChatResponse)) (formattedPrompt "q" "")),
       [formattedPrompt "q" ""]) :=
  ⟨rfl, C4_empty_retrieval_still_generates (fun _ => []) (fun p => Except.ok ⟨⟨p⟩⟩) "q" rfl⟩

/-- C5: if the Generation Provider always fails, rag_chain fails with that
GenerationFailure (stage and cause intact), returns no string at all, and
makes exactly one provider call, so there is no internal retry. -/
theorem C5_generation_failure_propagates (retriever : String → List Document)
    (chat : String → Except GenerationFailure ChatResponse) (question : String)
    (f : GenerationFailure) (h : ∀ p, chat p = Except.error f) :
    (rag_chain retriever chat question).1 = Except.error f ∧
    (∀ s : String, (rag_chain retriever chat question).1 ≠ Except.ok s) ∧
    (rag_chain retriever chat question).2.length = 1 := by
  simp only [rag_chain, ollama_llm]
  rw [h]
  exact ⟨rfl, fun s hs => by simp [Except.map] at hs, rfl⟩

/-- Witness for C5: a provider simulated to always error. -/
theorem C5_generation_failure_propagates_witness :
    (∀ p : String, (fun (_ : String) =>
        (Except.error ⟨"generation", "provider unreachable"⟩ :
          Except GenerationFailure ChatResponse)) p =
        (Except.error ⟨"generation", "provider unreachable"⟩ :
          Except GenerationFailure ChatResponse)) ∧
    ((rag_chain (fun _ => [⟨"text", "url_0"⟩])
        (fun _ => Except.error ⟨"generation", "provider unreachable"⟩) "q").1 =
      Except.error ⟨"generation", "provider unreachable"⟩ ∧
    (∀ s : String, (rag_chain (fun _ => [⟨"text", "url_0"⟩])
        (fun _ => Except.error ⟨"generation", "provider unreachable"⟩) "q").1 ≠
      Except.ok s) ∧
    (rag_chain (fun _ => [⟨"text", "url_0"⟩])
        (fun _ => Except.error ⟨"generation", "provider unreachable"⟩) "q").2.length = 1) :=
  ⟨fun _ => rfl,
   C5_generation_failure_propagates (fun _ => [⟨"text", "url_0"⟩])
     (fun _ => Except.error ⟨"generation", "provider unreachable"⟩) "q"
     ⟨"generation", "provider unreachable"⟩ (fun _ => rfl)⟩

/-- C9: with deterministic providers (outputs depend only on the input, any
state threading left arbitrary) and an unchanged index, two successive
rag_chain calls on the same question yield identical output strings: the
orchestrator keeps no state of its own between calls. -/
theorem C9_answer_idempotent {σ : Type} (R : String → List Document)
    (T : σ → String → σ) (C : String → ChatResponse) (U : σ → String → σ)
    (question : String) (s : σ) :
    (rag_chainS (fun s q => (R q, T s q)) (fun s p => (C p, U s p)) question
        ((rag_chainS (fun s q => (R q, T s q)) (fun s p => (C p, U s p)) question s).2)).1 =
    (rag_chainS (fun s q => (R q, T s q)) (fun s p => (C p, U s p)) question s).1 := by
  rfl

lemma consecPairs_cons_cons {α : Type} (a b : α) (l : List α) :
    consecPairs (a :: b :: l) = (a, b) :: consecPairs (b :: l) := rfl

lemma windows_cons (size s off : Nat) (t : List Char) :
    ∃ r, windows size s off t = (off, t.take size) :: r := by
  by_cases h : t.length ≤ size
  · rw [windows, if_pos h, List.take_of_length_le h]
    exact ⟨[], rfl⟩
  · rw [windows, if_neg h]
    exact ⟨_, rfl⟩

lemma windows_cover (size s : Nat) (hs : s + 1 ≤ size) (off : Nat) (t : List Char) :
    ∀ i, i < t.length →
      ∃ p ∈ windows size s off t, p.1 ≤ off + i ∧ off + i < p.1 + p.2.length := by
  induction off, t using windows.induct size s with
  | case1 off t h =>
    intro i hi
    refine ⟨(off, t), ?_, by omega, ?_⟩
    · rw [windows, if_pos h]; exact List.mem_singleton.mpr rfl
    · show off + i < off + t.length
      omega
  | case2 off t h ih =>
    intro i hi
    by_cases hcase : i < size
    · refine ⟨(off, t.take size), ?_, by omega, ?_⟩
      · rw [windows, if_neg h]; exact List.mem_cons_self _ _
      · show off + i < off + (t.take size).length
        simp only [List.length_take]
        omega
    · obtain ⟨p, hp, h1, h2⟩ := ih (i - (s+1)) (by simp only [List.length_drop]; omega)
      refine ⟨p, ?_, by omega, by omega⟩
      rw [windows, if_neg h]
      exact List.mem_cons_of_mem _ hp

lemma windows_consec (size s : Nat) (off : Nat) (t : List Char) :
    ∀ pq ∈ consecPairs (windows size s off t),
      pq.2.1 = pq.1.1 + (s+1) ∧ pq.1.2.length = size ∧
      pq.1.2.drop (s+1) = pq.2.2.take (size - (s+1)) ∧
      (pq.2.2.take (size - (s+1))).length = size - (s+1) := by
  induction off, t using windows.induct size s with
  | case1 off t h =>
    intro pq hpq
    rw [windows, if_pos h] at hpq
    simp [consecPairs] at hpq
  | case2 off t h ih =>
    intro pq hpq
    rw [windows, if_neg h] at hpq
    obtain ⟨r, hr⟩ := windows_cons size s (off + (s+1)) (t.drop (s+1))
    rw [hr, consecPairs_cons_cons] at hpq
    rcases List.mem_cons.mp hpq with heq | hmem
    · subst heq
      refine ⟨rfl, ?_, ?_, ?_⟩
      · show (t.take size).length = size
        simp only [List.length_take]
        omega
      · show (t.take size).drop (s+1) = ((t.drop (s+1)).take size).take (size - (s+1))
        rw [List.drop_take, List.take_take, min_eq_left (Nat.sub_le _ _)]
      · show (((t.drop (s+1)).take size).take (size - (s+1))).length = size - (s+1)
        simp only [List.length_take, List.length_drop]
        omega
    · rw [← hr] at hmem
      exact ih pq hmem

lemma chunksFrom_mem (sid : String) : ∀ (ws : List (Nat × List Char)) (k : Nat)
    (p : Nat × List Char), p ∈ ws →
    ∃ c ∈ chunksFrom sid k ws, c.start_offset = p.1 ∧ c.text = p.2 := by
  intro ws
  induction ws with
  | nil => intro k p hp; simp at hp
  | cons a ws2 ih =>
    intro k p hp
    rcases List.mem_cons.mp hp with h | h
    · subst h
      exact ⟨⟨sid, k, p.2, p.1⟩, List.mem_cons_self _ _, rfl, rfl⟩
    · obtain ⟨c, hc, h1, h2⟩ := ih (k+1) p h
      exact ⟨c, List.mem_cons_of_mem _ hc, h1, h2⟩

lemma chunksFrom_consec (sid : String) : ∀ (ws : List (Nat × List Char)) (k : Nat)
    (pq : Chunk × Chunk), pq ∈ consecPairs (chunksFrom sid k ws) →
    ∃ qq ∈ consecPairs ws,
      pq.1.start_offset = qq.1.1 ∧ pq.1.text = qq.1.2 ∧
      pq.2.start_offset = qq.2.1 ∧ pq.2.text = qq.2.2 ∧
      pq.2.sequence_index = pq.1.sequence_index + 1 := by
  intro ws
  induction ws with
  | nil => intro k pq h; simp [chunksFrom, consecPairs] at h
  | cons a ws2 ih =>
    cases ws2 with
    | nil => intro k pq h; simp [chunksFrom, consecPairs] at h
    | cons b ws3 =>
      intro k pq h
      rw [show chunksFrom sid k (a :: b :: ws3)
            = ⟨sid, k, a.2, a.1⟩ :: ⟨sid, k+1, b.2, b.1⟩ :: chunksFrom sid (k+2) ws3
          from rfl, consecPairs_cons_cons] at h
      rcases List.mem_cons.mp h with heq | hmem
      · subst heq
        refine ⟨(a, b), ?_, rfl, rfl, rfl, rfl, rfl⟩
        rw [consecPairs_cons_cons]
        exact List.mem_cons_self _ _
      · obtain ⟨qq, hqq, h1, h2, h3, h4, h5⟩ := ih (k+1) pq hmem
        refine ⟨qq, ?_, h1, h2, h3, h4, h5⟩
        rw [consecPairs_cons_cons]
        exact List.mem_cons_of_mem _ hqq

/-- C2: for every valid configuration overlap < size, the chunker succeeds,
every character offset of the document is covered by at least one chunk,
and each pair of consecutive chunks advances by size - overlap, increments
the sequence index, and shares exactly overlap characters: the trailing
overlap characters of the earlier chunk are the leading overlap characters
of the later one, the earlier chunk being a full window of length size. -/
theorem C2_chunker_no_gaps_exact_overlap (doc : SourceDocument) (size overlap : Nat)
    (h : overlap < size) :
    ∃ cs, chunk doc size overlap = Except.ok cs ∧
      (∀ i, i < doc.text.length →
        ∃ c ∈ cs, c.start_offset ≤ i ∧ i < c.start_offset + c.text.length) ∧
      (∀ pq ∈ consecPairs cs,
        pq.2.start_offset = pq.1.start_offset + (size - overlap) ∧
        pq.2.sequence_index = pq.1.sequence_index + 1 ∧
        pq.1.text.length = size ∧
        pq.1.text.drop (size - overlap) = pq.2.text.take overlap ∧
        (pq.1.text.drop (size - overlap)).length = overlap ∧
        (pq.2.text.take overlap).length = overlap) := by
  by_cases hempty : doc.text = []
  · refine ⟨[], ?_, ?_, ?_⟩
    · unfold chunk; rw [if_neg (by omega), if_pos hempty]
    · intro i hi
      rw [hempty] at hi
      simp at hi
    · intro pq hpq
      simp [consecPairs] at hpq
  · refine ⟨chunksFrom doc.id 0 (windows size (size - overlap - 1) 0 doc.text), ?_, ?_, ?_⟩
    · unfold chunk; rw [if_neg (by omega), if_neg hempty]
    · intro i hi
      obtain ⟨p, hp, h1, h2⟩ :=
        windows_cover size (size - overlap - 1) (by omega) 0 doc.text i hi
      obtain ⟨c, hc, e1, e2⟩ := chunksFrom_mem doc.id _ 0 p hp
      refine ⟨c, hc, ?_, ?_⟩
      · rw [e1]; omega
      · rw [e1, e2]; omega
    · intro pq hpq
      obtain ⟨qq, hqq, e1, e2, e3, e4, e5⟩ := chunksFrom_consec doc.id _ 0 pq hpq
      obtain ⟨w1, w2, w3, w4⟩ := windows_consec size (size - overlap - 1) 0 doc.text qq hqq
      rw [show size - overlap - 1 + 1 = size - overlap from by omega] at w1 w3 w4
      rw [show size - (size - overlap) = overlap from by omega] at w3 w4
      refine ⟨?_, e5, ?_, ?_, ?_, ?_⟩
      · rw [e3, e1, w1]
      · rw [e2, w2]
      · rw [e2, e4, w3]
      · rw [e2]
        simp only [List.length_drop, w2]
        omega
      · rw [e4, w4]

/-- Witness for C2 on the 8-character document "01234567" with size 5 and
overlap 3, whose chunks are "01234", "23456", "4567". -/
theorem C2_chunker_no_gaps_exact_overlap_witness :
    (3 : Nat) < 5 ∧
    (∃ cs, chunk ⟨"d0", "01234567".toList⟩ 5 3 = Except.ok cs ∧
      (∀ i, i < (SourceDocument.mk "d0" "01234567".toList).text.length →
        ∃ c ∈ cs, c.start_offset ≤ i ∧ i < c.start_offset + c.text.length) ∧
      (∀ pq ∈ consecPairs cs,
        pq.2.start_offset = pq.1.start_offset + (5 - 3) ∧
        pq.2.sequence_index = pq.1.sequence_index + 1 ∧
        pq.1.text.length = 5 ∧
        pq.1.text.drop (5 - 3) = pq.2.text.take 3 ∧
        (pq.1.text.drop (5 - 3)).length = 3 ∧
        (pq.2.text.take 3).length = 3)) :=
  ⟨by decide, C2_chunker_no_gaps_exact_overlap ⟨"d0", "01234567".toList⟩ 5 3 (by decide)⟩

/-- C6: for a valid configuration, an empty document yields zero chunks and
no error, and a nonempty document no longer than the chunk size yields
exactly one chunk equal to the whole text. -/
theorem C6_short_and_empty_docs (doc : SourceDocument) (size overlap : Nat)
    (h : overlap < size) :
    (doc.text = [] → chunk doc size overlap = Except.ok []) ∧
    (doc.text ≠ [] → doc.text.length ≤ size →
      chunk doc size overlap = Except.ok [⟨doc.id, 0, doc.text, 0⟩]) := by
  constructor
  · intro he
    unfold chunk
    rw [if_neg (by omega), if_pos he]
  · intro hne hlen
    unfold chunk
    rw [if_neg (by omega), if_neg hne, windows, if_pos hlen]
    rfl

/-- Witness for C6 at an empty document and at a 3-character document with
size 5 and overlap 2. -/
theorem C6_short_and_empty_docs_witness :
    (2 : Nat) < 5 ∧
    chunk ⟨"e", []⟩ 5 2 = Except.ok [] ∧
    chunk ⟨"d", ['a', 'b', 'c']⟩ 5 2 = Except.ok [⟨"d", 0, ['a', 'b', 'c'], 0⟩] :=
  ⟨by decide,
   (C6_short_and_empty_docs ⟨"e", []⟩ 5 2 (by decide)).1 rfl,
   (C6_short_and_empty_docs ⟨"d", ['a', 'b', 'c']⟩ 5 2 (by decide)).2 (by decide) (by decide)⟩

/-- C7: a configuration with overlap at least size is rejected at call time
with a ConfigurationError, producing no chunks. -/
theorem C7_overlap_ge_size_rejected (doc : SourceDocument) (size overlap : Nat)
    (h : size ≤ overlap) :
    chunk doc size overlap =
      Except.error ⟨"chunk overlap must be smaller than chunk size"⟩ := by
  unfold chunk
  rw [if_pos h]

/-- Witness for C7 at size 3, overlap 3. -/
theorem C7_overlap_ge_size_rejected_witness :
    (3 : Nat) ≤ 3 ∧
    chunk ⟨"d", ['a']⟩ 3 3 =
      Except.error ⟨"chunk overlap must be smaller than chunk size"⟩ :=
  ⟨by decide, C7_overlap_ge_size_rejected ⟨"d", ['a']⟩ 3 3 (by decide)⟩

/-- C8: search never errors: on an empty index it returns the empty
sequence, and whenever the index holds at most k items it returns all of
them (as a permutation of the scored index contents). -/
theorem C8_search_small_index_returns_all (score : List ℚ → ℚ) (k : Nat)
    (index : List EmbeddedChunk) (hk : 0 < k) (hle : index.length ≤ k) :
    search [] score k = [] ∧
    List.Perm (search index score k)
      (index.map fun ec => (ec.chunk, score ec.vector)) := by
  constructor
  · simp [search]
  · unfold search
    rw [List.take_of_length_le
      (by rw [List.length_insertionSort, List.length_map]; exact hle)]
    exact List.perm_insertionSort _ _

/-- Witness for C8 on a two-element index with k = 3. -/
theorem C8_search_small_index_returns_all_witness :
    (0 : Nat) < 3 ∧
    ([⟨⟨"s", 0, ['a'], 0⟩, [1]⟩, ⟨⟨"s", 1, ['b'], 5⟩, [2]⟩] :
      List EmbeddedChunk).length ≤ 3 ∧
    (search [] (fun v => v.headD 0) 3 = [] ∧
     List.Perm (search [⟨⟨"s", 0, ['a'], 0⟩, [1]⟩, ⟨⟨"s", 1, ['b'], 5⟩, [2]⟩]
         (fun v => v.headD 0) 3)
       (([⟨⟨"s", 0, ['a'], 0⟩, [1]⟩, ⟨⟨"s", 1, ['b'], 5⟩, [2]⟩] :
         List EmbeddedChunk).map fun ec => (ec.chunk, (fun v => v.headD 0) ec.vector))) :=
  ⟨by decide, by decide,
   C8_search_small_index_returns_all (fun v => v.headD 0) 3
     [⟨⟨"s", 0, ['a'], 0⟩, [1]⟩, ⟨⟨"s", 1, ['b'], 5⟩, [2]⟩] (by decide) (by decide)⟩

/-- C3: retrieve returns at most k chunks, returns fewer than k only when
the index holds fewer than k embedded chunks, and k is a configuration
parameter of the operation whose reference default retrieval_k is 4. -/
theorem C3_retrieve_at_most_k (index : List EmbeddedChunk)
    (embed : String → List ℚ) (sim : List ℚ → List ℚ → ℚ) (q : String)
    (k : Nat) (hk : 0 < k) :
    (retrieve index embed sim q k).length ≤ k ∧
    ((retrieve index embed sim q k).length < k → index.length < k) ∧
    retrieval_k = 4 := by
  have hlen : (retrieve index embed sim q k).length = min k index.length := by
    unfold retrieve search
    rw [List.length_map, List.length_take, List.length_insertionSort, List.length_map]
  refine ⟨by omega, by omega, rfl⟩

/-- Witness for C3 on a one-element index with k = 2. -/
theorem C3_retrieve_at_most_k_witness :
    (0 : Nat) < 2 ∧
    ((retrieve [⟨⟨"s", 0, ['a'], 0⟩, [1]⟩] (fun _ => []) (fun _ _ => 0) "q" 2).length ≤ 2 ∧
     ((retrieve [⟨⟨"s", 0, ['a'], 0⟩, [1]⟩] (fun _ => []) (fun _ _ => 0) "q" 2).length < 2 →
       ([⟨⟨"s", 0, ['a'], 0⟩, [1]⟩] : List EmbeddedChunk).length < 2) ∧
     retrieval_k = 4) :=
  ⟨by decide,
   C3_retrieve_at_most_k [⟨⟨"s", 0, ['a'], 0⟩, [1]⟩] (fun _ => []) (fun _ _ => 0) "q" 2
     (by decide)⟩

lemma hasPdfHeader_eq (content : List Nat) :
    hasPdfHeader content = List.isPrefixOf pdfMagic content := by
  rcases content with _ | ⟨a, _ | ⟨b, _ | ⟨c, _ | ⟨d, t⟩⟩⟩⟩ <;>
    simp [hasPdfHeader, bytesContains, pdfMagic, List.isPrefixOf]

lemma ingest_append (env : IngestEnv) : ∀ (us : List String) (i : Nat) (vs : List String),
    ingest env i (us ++ vs) =
      ((ingest env i us).1 ++ (ingest env (i + us.length) vs).1,
       (ingest env i us).2 ++ (ingest env (i + us.length) vs).2) := by
  intro us
  induction us with
  | nil =>
    intro i vs
    simp [ingest]
  | cons u us ih =>
    intro i vs
    rw [show (u :: us) ++ vs = u :: (us ++ vs) from rfl]
    rw [show ingest env i (u :: (us ++ vs))
          = ((processUrl env i u).1.toList ++ (ingest env (i+1) (us ++ vs)).1,
             (processUrl env i u).2.toList ++ (ingest env (i+1) (us ++ vs)).2) from rfl]
    rw [ih (i+1) vs]
    rw [show ingest env i (u :: us)
          = ((processUrl env i u).1.toList ++ (ingest env (i+1) us).1,
             (processUrl env i u).2.toList ++ (ingest env (i+1) us).2) from rfl]
    rw [show i + (u :: us).length = i + 1 + us.length from by simp; omega]
    simp [List.append_assoc]

/-- C10: in the ingestion loop, a fetched page with no iframe, and a
download whose content does not begin with the %PDF header, are skipped
silently: no document is appended and no message is printed for that URL;
a message is printed only when a fetch or parse call raised; and the loop
processes every URL independently, continuing past every failure. -/
theorem C10_ingestion_skip_silently_continue (env : IngestEnv) :
    (∀ i u page, env.fetchPage u = Except.ok page → page.iframe = none →
      processUrl env i u = (none, none)) ∧
    (∀ i u page ifr src content, env.fetchPage u = Except.ok page →
      page.iframe = some ifr → ifr.src = some src →
      env.fetchBytes (env.resolve u src) = Except.ok content →
      List.isPrefixOf pdfMagic content = false →
      processUrl env i u = (none, none)) ∧
    (∀ i u msg, (processUrl env i u).2 = some msg →
      (∃ e, env.fetchPage u = Except.error e) ∨
      (∃ s e, env.fetchBytes (env.resolve u s) = Except.error e) ∨
      (∃ c e, env.extractText c = Except.error e)) ∧
    (∀ i us vs, ingest env i (us ++ vs) =
      ((ingest env i us).1 ++ (ingest env (i + us.length) vs).1,
       (ingest env i us).2 ++ (ingest env (i + us.length) vs).2)) := by
  refine ⟨?_, ?_, ?_, ?_⟩
  · intro i u page h1 h2
    simp [processUrl, h1, h2]
  · intro i u page ifr src content h1 h2 h3 h4 h5
    simp [processUrl, h1, h2, h3, h4, hasPdfHeader_eq, h5]
  · intro i u msg hmsg
    rcases hfp : env.fetchPage u with e | page
    · exact Or.inl ⟨e, rfl⟩
    · simp only [processUrl, hfp] at hmsg
      rcases hif : page.iframe with _ | ifr
      · simp [hif] at hmsg
      · rcases hsrc : ifr.src with _ | src
        · simp [hif, hsrc] at hmsg
        · rcases hfb : env.fetchBytes (env.resolve u src) with e2 | content
          · exact Or.inr (Or.inl ⟨src, e2, hfb⟩)
          · simp only [hif, hsrc, hfb] at hmsg
            by_cases hh : hasPdfHeader content = true
            · simp only [hh, if_true] at hmsg
              rcases het : env.extractText content with e3 | txt
              · exact Or.inr (Or.inr ⟨content, e3, het⟩)
              · simp [het] at hmsg
            · simp [hh] at hmsg
  · exact fun i us vs => ingest_append env us i vs

/-- Witness for C10 on a concrete environment: a page with no iframe, a
download that is not a PDF, and a URL whose fetch raises. -/
theorem C10_ingestion_skip_silently_continue_witness :
    (IngestEnv.mk
        (fun u => if u = "bad" then Except.error "boom" else
          if u = "noframe" then Except.ok ⟨none⟩ else Except.ok ⟨some ⟨some "f"⟩⟩)
        (fun _ => Except.ok [1, 2, 3])
        (fun _ => Except.ok "text")
        (fun _ s => s)).fetchPage "noframe" = Except.ok ⟨none⟩ ∧
    processUrl
      (IngestEnv.mk
        (fun u => if u = "bad" then Except.error "boom" else
          if u = "noframe" then Except.ok ⟨none⟩ else Except.ok ⟨some ⟨some "f"⟩⟩)
        (fun _ => Except.ok [1, 2, 3])
        (fun _ => Except.ok "text")
        (fun _ s => s)) 0 "noframe" = (none, none) ∧
    processUrl
      (IngestEnv.mk
        (fun u => if u = "bad" then Except.error "boom" else
          if u = "noframe" then Except.ok ⟨none⟩ else Except.ok ⟨some ⟨some "f"⟩⟩)
        (fun _ => Except.ok [1, 2, 3])
        (fun _ => Except.ok "text")
        (fun _ s => s)) 1 "u1" = (none, none) ∧
    ingest
      (IngestEnv.mk
        (fun u => if u = "bad" then Except.error "boom" else
          if u = "noframe" then Except.ok ⟨none⟩ else Except.ok ⟨some ⟨some "f"⟩⟩)
        (fun _ => Except.ok [1, 2, 3])
        (fun _ => Except.ok "text")
        (fun _ s => s)) 0 (["bad"] ++ ["noframe"]) =
      ((ingest
        (IngestEnv.mk
          (fun u => if u = "bad" then Except.error "boom" else
            if u = "noframe" then Except.ok ⟨none⟩ else Except.ok ⟨some ⟨some "f"⟩⟩)
          (fun _ => Except.ok [1, 2, 3])
          (fun _ => Except.ok "text")
          (fun _ s => s)) 0 ["bad"]).1 ++
       (ingest
        (IngestEnv.mk
          (fun u => if u = "bad" then Except.error "boom" else
            if u = "noframe" then Except.ok ⟨none⟩ else Except.ok ⟨some ⟨some "f"⟩⟩)
          (fun _ => Except.ok [1, 2, 3])
          (fun _ => Except.ok "text")
          (fun _ s => s)) (0 + (["bad"] : List String).length) ["noframe"]).1,
       (ingest
        (IngestEnv.mk
          (fun u => if u = "bad" then Except.error "boom" else
            if u = "noframe" then Except.ok ⟨none⟩ else Except.ok ⟨some ⟨some "f"⟩⟩)
          (fun _ => Except.ok [1, 2, 3])
          (fun _ => Except.ok "text")
          (fun _ s => s)) 0 ["bad"]).2 ++
       (ingest
        (IngestEnv.mk
          (fun u => if u = "bad" then Except.error "boom" else
            if u = "noframe" then Except.ok ⟨none⟩ else Except.ok ⟨some ⟨some "f"⟩⟩)
          (fun _ => Except.ok [1, 2, 3])
          (fun _ => Except.ok "text")
          (fun _ s => s)) (0 + (["bad"] : List String).length) ["noframe"]).2) :=
  ⟨rfl,
   (C10_ingestion_skip_silently_continue _).1 0 "noframe" ⟨none⟩ rfl rfl,
   (C10_ingestion_skip_silently_continue _).2.1 1 "u1" ⟨some ⟨some "f"⟩⟩ ⟨some "f"⟩
     "f" [1, 2, 3] rfl rfl rfl rfl (by decide),
   (C10_ingestion_skip_silently_continue _).2.2.2 0 ["bad"] ["noframe"]⟩
